import Mathlib

/-!
Shallow embedding of `threadparser.py` (OKP thread parser).

The program tokenizes a forum thread's HTML with a fixed catalogue of
regular expressions, sorts the tokens by source offset, groups them into
posts at `BREAKER` tokens, and folds each group into a `Reply` record.

Python strings are modelled as Lean `String`/`List Char` (ASCII fragment);
Python exceptions are modelled by an explicit error type `PyErr`; Python
`None` by `Option`.
-/

/-- Python `\d` (ASCII digits; the patterns in the source use `\d`). -/
def isPyDigit (c : Char) : Bool := '0' ≤ c && c ≤ '9'

/-- Python `\s` whitespace class (ASCII part): space, tab, newline, carriage
return, form feed, vertical tab. -/
def isPySpace (c : Char) : Bool :=
  c = ' ' || c = '\t' || c = '\n' || c = '\r' || c = '\x0c' || c = '\x0b'

/-- Value of a list of decimal digit characters. -/
def digitsToNat (cs : List Char) : Nat :=
  cs.foldl (fun a c => a * 10 + (c.toNat - 48)) 0

/-- Modelled from Python `int(str)`: strips surrounding whitespace, allows an
optional sign, then one or more decimal digits; anything else raises, which we
model as `none`.  `int` applied to an `int` is the identity and is modelled
directly at the call sites. -/
def pyIntOfChars (cs0 : List Char) : Option Int :=
  let cs := (((cs0.dropWhile isPySpace).reverse).dropWhile isPySpace).reverse
  match cs with
  | '-' :: ds =>
      if ds ≠ [] ∧ ds.all isPyDigit then some (-(digitsToNat ds : Int)) else none
  | '+' :: ds =>
      if ds ≠ [] ∧ ds.all isPyDigit then some (digitsToNat ds : Int) else none
  | ds =>
      if ds ≠ [] ∧ ds.all isPyDigit then some (digitsToNat ds : Int) else none

def pyInt (s : String) : Option Int := pyIntOfChars s.toList

/-- Python `str.lower()` (ASCII model, matching `Char.toLower`). -/
def pyLower (s : String) : String := ⟨s.toList.map Char.toLower⟩

/-- Python `str.startswith(p)`. -/
def pyStartsWith (s p : String) : Bool := p.toList.isPrefixOf s.toList

/-- Python `str.endswith(p)` for a single suffix; the tuple form in the source
is the disjunction of the three single-suffix tests. -/
def pyEndsWith (s p : String) : Bool := p.toList.isSuffixOf s.toList

/-- Modelled from `re.sub(r'st|nd|rd|th', '', data)` in `Reply.consume`:
left-to-right scan deleting each non-overlapping occurrence of one of the
four two-character ordinal suffixes. -/
def removeOrdinalsChars : List Char → List Char
  | [] => []
  | [c] => [c]
  | c1 :: c2 :: rest =>
      if (c1 = 's' ∧ c2 = 't') ∨ (c1 = 'n' ∧ c2 = 'd') ∨
         (c1 = 'r' ∧ c2 = 'd') ∨ (c1 = 't' ∧ c2 = 'h') then
        removeOrdinalsChars rest
      else
        c1 :: removeOrdinalsChars (c2 :: rest)

def removeOrdinals (s : String) : String := ⟨removeOrdinalsChars s.toList⟩

/-- Python naive `datetime.datetime` value (seconds resolution; the formats
in the source never set sub-minute fields except to zero). -/
structure PyDateTime where
  year : Nat
  month : Nat
  day : Nat
  hour : Nat
  minute : Nat
  second : Nat
deriving DecidableEq, Repr

/-- Lower-cased month abbreviations recognised by `strptime`'s `%b`. -/
def monthAbbrevs : List (List Char) :=
  ["jan".toList, "feb".toList, "mar".toList, "apr".toList,
   "may".toList, "jun".toList, "jul".toList, "aug".toList,
   "sep".toList, "oct".toList, "nov".toList, "dec".toList]

/-- `%b`: three letters naming a month abbreviation, case-insensitively;
returns the month number (1-12) and the remaining input. -/
def parseMonthAbbrev (cs : List Char) : Option (Nat × List Char) :=
  match cs with
  | c1 :: c2 :: c3 :: rest =>
      match monthAbbrevs.findIdx? (· == [c1.toLower, c2.toLower, c3.toLower]) with
      | some i => some (i + 1, rest)
      | none => none
  | _ => none

/-- One-or-two-digit numeric field bounded to `[lo, hi]` (the shape of the
`strptime` regexes for `%d`, `%I`, `%M`). -/
def parseNum2 (lo hi : Nat) (cs : List Char) : Option (Nat × List Char) :=
  let ds := cs.takeWhile isPyDigit
  let rest := cs.dropWhile isPyDigit
  if (ds.length = 1 ∨ ds.length = 2) ∧ lo ≤ digitsToNat ds ∧ digitsToNat ds ≤ hi then
    some (digitsToNat ds, rest)
  else none

/-- `%y`: exactly two digits; 00-68 maps to 2000-2068, 69-99 to 1969-1999. -/
def parseYear2 (cs : List Char) : Option (Nat × List Char) :=
  match cs with
  | d1 :: d2 :: rest =>
      if isPyDigit d1 ∧ isPyDigit d2 then
        let v := digitsToNat [d1, d2]
        some (if v ≤ 68 then 2000 + v else 1900 + v, rest)
      else none
  | _ => none

/-- `%Y`: exactly four digits. -/
def parseYear4 (cs : List Char) : Option (Nat × List Char) :=
  match cs with
  | d1 :: d2 :: d3 :: d4 :: rest =>
      if isPyDigit d1 ∧ isPyDigit d2 ∧ isPyDigit d3 ∧ isPyDigit d4 then
        some (digitsToNat [d1, d2, d3, d4], rest)
      else none
  | _ => none

/-- Literal whitespace in a `strptime` format: one or more whitespace chars. -/
def parseWs (cs : List Char) : Option (List Char) :=
  match cs with
  | c :: rest => if isPySpace c then some (rest.dropWhile isPySpace) else none
  | [] => none

/-- `%p`: `AM` or `PM`, case-insensitively; `true` means PM. -/
def parseAmPm (cs : List Char) : Option (Bool × List Char) :=
  match cs with
  | c1 :: c2 :: rest =>
      if c1.toLower = 'a' ∧ c2.toLower = 'm' then some (false, rest)
      else if c1.toLower = 'p' ∧ c2.toLower = 'm' then some (true, rest)
      else none
  | _ => none

/-- Expect one literal character. -/
def parseLit (c : Char) (cs : List Char) : Option (List Char) :=
  match cs with
  | d :: rest => if d = c then some rest else none
  | [] => none

/-- Modelled from Python `datetime.strptime(s, "%b-%d-%y %I:%M %p")`, the
format used for `MESG_DATE` payloads (after the 4-character slice): month
abbreviation, day, two-digit year, 12-hour time with AM/PM; the whole string
must be consumed. -/
def strptimeMesgDate (cs : List Char) : Option PyDateTime := do
  let (m, cs) ← parseMonthAbbrev cs
  let cs ← parseLit '-' cs
  let (d, cs) ← parseNum2 1 31 cs
  let cs ← parseLit '-' cs
  let (y, cs) ← parseYear2 cs
  let cs ← parseWs cs
  let (h12, cs) ← parseNum2 1 12 cs
  let cs ← parseLit ':' cs
  let (mi, cs) ← parseNum2 0 59 cs
  let cs ← parseWs cs
  let (pm, cs) ← parseAmPm cs
  if cs = [] then
    let h := if pm then (if h12 = 12 then 12 else h12 + 12)
             else (if h12 = 12 then 0 else h12)
    some ⟨y, m, d, h, mi, 0⟩
  else none

/-- Modelled from Python `datetime.strptime(s, '%b %d %Y')`, the format used
for `AUTHOR_NEWBIE` payloads after ordinal-suffix removal. -/
def strptimeJoinDate (cs : List Char) : Option PyDateTime := do
  let (m, cs) ← parseMonthAbbrev cs
  let cs ← parseWs cs
  let (d, cs) ← parseNum2 1 31 cs
  let cs ← parseWs cs
  let (y, cs) ← parseYear4 cs
  if cs = [] then some ⟨y, m, d, 0, 0, 0⟩ else none

def isLeapYear (y : Nat) : Bool :=
  (y % 4 == 0 && y % 100 != 0) || (y % 400 == 0)

def daysInMonth (y m : Nat) : Nat :=
  if m = 2 then (if isLeapYear y then 29 else 28)
  else if m = 4 ∨ m = 6 ∨ m = 9 ∨ m = 11 then 30
  else 31

def nextDay (d : PyDateTime) : PyDateTime :=
  if d.day < daysInMonth d.year d.month then { d with day := d.day + 1 }
  else if d.month < 12 then { d with day := 1, month := d.month + 1 }
  else { d with day := 1, month := 1, year := d.year + 1 }

def addDays : PyDateTime → Nat → PyDateTime
  | d, 0 => d
  | d, n + 1 => addDays (nextDay d) n

/-- Python `datetime + timedelta(0, s)` for a nonnegative number of seconds. -/
def addSeconds (d : PyDateTime) (s : Nat) : PyDateTime :=
  let tot := d.hour * 3600 + d.minute * 60 + d.second + s
  let rest := tot % 86400
  addDays { d with hour := rest / 3600, minute := rest % 3600 / 60,
                   second := rest % 60 } (tot / 86400)

/-- `get_default_time_offset()` = `datetime.timedelta(0, 3757)`: the constant
clock-skew correction added to every parsed message date. -/
def defaultTimeOffsetSeconds : Nat := 3757

/-! ### Token model (`class Token`) -/

/-- The token type constants of `class Token`. -/
inductive TokenType where
  | MESG_ID | MESG_TITLE | MESG_PARENT | MESG_TEXT | MESG_DATE | MESG_NUM
  | AUTHOR_NAME | AUTHOR_AVATAR | AUTHOR_ID | AUTHOR_CHARTER | AUTHOR_NEWBIE
  | AUTHOR_POSTS | BREAKER
deriving DecidableEq, Repr

/-- `Token(type, data, position)`: `data` is `match.group(1)` and `position`
is `match.start()`. -/
structure Token where
  type : TokenType
  data : String
  position : Nat
deriving DecidableEq, Repr

/-- Start offsets of the non-overlapping, leftmost-first occurrences of the
literal `lit` in the input — the matches of a literal regular expression
under `re.finditer`.  `skip` counts characters still covered by the previous
match, inside which no new match may start. -/
def findLitAux (lit : List Char) : List Char → Nat → Nat → List Nat
  | [], _, _ => []
  | c :: rest, pos, 0 =>
      if lit.isPrefixOf (c :: rest) ∧ lit ≠ [] then
        pos :: findLitAux lit rest (pos + 1) (lit.length - 1)
      else
        findLitAux lit rest (pos + 1) 0
  | _ :: rest, pos, skip + 1 => findLitAux lit rest (pos + 1) skip

/-- The literal phrase matched (and captured) by the `BREAKER` pattern
`re.compile(r'(Printer-friendly copy)')`. -/
def breakerPhrase : String := "Printer-friendly copy"

/-- Modelled from the `BREAKER` entry of the tokenizer loop in
`ThreadParser.parse`: `re.finditer` over the document with the pattern
`(Printer-friendly copy)`, each match becoming
`Token(BREAKER, match.group(1), match.start())`; `group(1)` of this pattern
is the whole matched literal. -/
def breakerFinditer (doc : String) : List Token :=
  (findLitAux breakerPhrase.toList doc.toList 0 0).map
    (fun p => ⟨TokenType.BREAKER, breakerPhrase, p⟩)

/-! ### Header searches in `ThreadParser.__init__` -/

/-- `re.search(key + '(\d+)', doc)` for a literal `key` (used with
`forum=` and `topic_id=`): the captured digit run of the leftmost position
where the literal is immediately followed by at least one digit. -/
def searchKeyNum (key : List Char) : List Char → Option (List Char)
  | [] => none
  | c :: rest =>
      if key.isPrefixOf (c :: rest) then
        let ds := ((c :: rest).drop key.length).takeWhile isPyDigit
        if ds ≠ [] then some ds else searchKeyNum key rest
      else searchKeyNum key rest

/-- The lazy group of `"(.*?)"\s*</strong>` tried at increasing capture
lengths: the shortest newline-free capture whose closing quote is followed by
whitespace and the literal `</strong>`. -/
def titleLazyCapture : List Char → List Char → Option (List Char)
  | [], _ => none
  | c :: rest, acc =>
      if c = '"' then
        if ("</strong>".toList).isPrefixOf (rest.dropWhile isPySpace) then
          some acc.reverse
        else titleLazyCapture rest (c :: acc)
      else if c = '\n' then none
      else titleLazyCapture rest (c :: acc)

/-- An anchored attempt of `<strong>\s*"(.*?)"\s*</strong>` at the head of
the input. -/
def matchTitleAt (cs : List Char) : Option (List Char) :=
  if ("<strong>".toList).isPrefixOf cs then
    match (cs.drop 8).dropWhile isPySpace with
    | '"' :: cs3 => titleLazyCapture cs3 []
    | _ => none
  else none

/-- `re.search('<strong>\s*"(.*?)"\s*</strong>', doc)`: the capture at the
leftmost start position where the anchored attempt succeeds. -/
def searchTitle : List Char → Option (List Char)
  | [] => none
  | c :: rest =>
      match matchTitleAt (c :: rest) with
      | some cap => some cap
      | none => searchTitle rest

/-- `re.search('forum=(\d+)', doc)`, returning the captured group as a
Python string. -/
def searchForum (doc : String) : Option String :=
  (searchKeyNum "forum=".toList doc.toList).map fun cs => ⟨cs⟩

/-- `re.search('topic_id=(\d+)', doc)`, returning the captured group. -/
def searchTopic (doc : String) : Option String :=
  (searchKeyNum "topic_id=".toList doc.toList).map fun cs => ⟨cs⟩

/-- `re.search('<strong>\s*"(.*?)"\s*</strong>', doc)`, returning the
captured group. -/
def searchTitleStr (doc : String) : Option String :=
  (searchTitle doc.toList).map fun cs => ⟨cs⟩

/-! ### Errors, `Reply`, and the reassembly pipeline -/

/-- Python exceptions that the embedded code can raise: `conversionError`
stands for the `ValueError`/`TypeError` family raised by `int()` and
`strptime`, `indexError` for `IndexError` on list indexing, and
`attributeError` for `AttributeError` when `re.search` returns `None` and
`.group(1)` is taken. -/
inductive PyErr where
  | conversionError | indexError | attributeError
deriving DecidableEq, Repr

/-- A Python runtime value restricted to the two types relevant here,
used to record whether a field holds an `int` or a `str`. -/
inductive PyVal where
  | int : Int → PyVal
  | str : String → PyVal
deriving DecidableEq, Repr

def PyVal.isInt : PyVal → Bool
  | .int _ => true
  | .str _ => false

/-- The fields of `class Reply` with the initial values set by
`Reply.__init__`; `forum_id` and `topic_id` hold the strings captured by the
header searches (see `mkThreadParser`).  Python `None` (and the `False`
initial value of `author_join_date`, overwritten either by a datetime or by
`False` again) is modelled by `none`. -/
structure Reply where
  forum_id : String
  topic_id : String
  message_id : Option Int := none
  message_title : Option String := none
  message_parent : Option Int := none
  message_text : Option String := none
  message_date : Option PyDateTime := none
  message_num : Option Int := none
  author_name : Option String := none
  author_avatar : Option String := none
  author_id : Option Int := none
  author_is_charter : Bool := false
  author_join_date : Option PyDateTime := none
  author_num_posts : Int := 0
  url : String := ""
deriving DecidableEq, Repr

/-- `Reply(forum_id, topic_id)`. -/
def Reply.init (forum_id topic_id : String) : Reply :=
  { forum_id := forum_id, topic_id := topic_id }

/-- `int(s)` raising `conversionError` on failure. -/
def pyIntE (s : String) : Except PyErr Int :=
  match pyInt s with
  | some n => Except.ok n
  | none => Except.error PyErr.conversionError

/-- One iteration of the token loop in `Reply.consume`.  The state is the
reply under construction together with `self.message`, the list of message
fragments.  A token of an unknown kind (in particular `BREAKER`, for which
`consume` has no branch) falls through every `elif` and leaves the state
unchanged. -/
def consumeToken (st : Reply × List String) (tok : Token) :
    Except PyErr (Reply × List String) :=
  let r := st.1
  let msg := st.2
  match tok.type with
  | .MESG_ID => (pyIntE tok.data).map fun n => ({ r with message_id := some n }, msg)
  | .MESG_TITLE => Except.ok ({ r with message_title := some tok.data }, msg)
  | .MESG_PARENT => (pyIntE tok.data).map fun n => ({ r with message_parent := some n }, msg)
  | .MESG_TEXT => Except.ok (r, msg ++ [tok.data])
  | .MESG_DATE =>
      match strptimeMesgDate (tok.data.toList.drop 4) with
      | some d =>
          Except.ok ({ r with message_date := some (addSeconds d defaultTimeOffsetSeconds) }, msg)
      | none => Except.error PyErr.conversionError
  | .MESG_NUM => (pyIntE tok.data).map fun n => ({ r with message_num := some n }, msg)
  | .AUTHOR_NAME => Except.ok ({ r with author_name := some tok.data }, msg)
  | .AUTHOR_AVATAR =>
      let img := pyLower tok.data
      if pyStartsWith img "http" ∧
         (pyEndsWith img "jpg" ∨ pyEndsWith img "gif" ∨ pyEndsWith img "png") then
        Except.ok ({ r with author_avatar := some img }, msg)
      else Except.ok (r, msg)
  | .AUTHOR_ID => (pyIntE tok.data).map fun n => ({ r with author_id := some n }, msg)
  | .AUTHOR_CHARTER =>
      Except.ok ({ r with author_is_charter := true, author_join_date := none }, msg)
  | .AUTHOR_NEWBIE =>
      match strptimeJoinDate (removeOrdinals tok.data).toList with
      | some d =>
          Except.ok ({ r with author_join_date := some d, author_is_charter := false }, msg)
      | none => Except.error PyErr.conversionError
  | .AUTHOR_POSTS => (pyIntE tok.data).map fun n => ({ r with author_num_posts := n }, msg)
  | .BREAKER => Except.ok (r, msg)

/-- `REPLY_URL % (f, t, m)` with the default template
`http://board.okayplayer.com/okp.php?az=show_topic&forum=%d&topic_id=%d#%d`. -/
def replyUrl (f t m : Int) : String :=
  "http://board.okayplayer.com/okp.php?az=show_topic&forum=" ++ toString f ++
    "&topic_id=" ++ toString t ++ "#" ++ toString m

/-- `Reply.consume(post)`: fold every token of the group into the reply,
join the message fragments into `message_text`, then build `url` from
`int(forum_id)`, `int(topic_id)` and `int(message_id)`; `int(None)` raises,
modelled as `conversionError` when `message_id` was never assigned. -/
def Reply.consume (r : Reply) (post : List Token) : Except PyErr Reply :=
  match post.foldlM consumeToken (r, []) with
  | .error e => .error e
  | .ok (r1, msg) =>
    let r2 := { r1 with message_text := some (String.join msg) }
    match pyInt r2.forum_id with
    | none => .error PyErr.conversionError
    | some f =>
      match pyInt r2.topic_id with
      | none => .error PyErr.conversionError
      | some t =>
        match r2.message_id with
        | none => .error PyErr.conversionError
        | some m => .ok { r2 with url := replyUrl f t m }

/-- The `ThreadParser` object state after a successful construction. -/
structure ThreadParser where
  title : String
  forum_id : String
  topic_id : String
  tokens : List Token
  replies : List Reply
deriving Repr

/-- The sorting step of `ThreadParser.parse`: the raw tokens collected from
every pattern (abstracted here as an arbitrary list) are put back into HTML
source order with `self.tokens.sort(key = lambda x: x.position)`. -/
def ThreadParser.parse (raw : List Token) : List Token :=
  raw.mergeSort (fun a b => a.position ≤ b.position)

/-- `ThreadParser.iter_posts`, generalised over the token list: accumulate
non-`BREAKER` tokens; at a `BREAKER`, yield the group if it is non-empty;
a trailing group never followed by a `BREAKER` is dropped. -/
def iterPostsAux : List Token → List Token → List (List Token)
  | [], _ => []
  | tok :: ts, group =>
      if tok.type ≠ TokenType.BREAKER then iterPostsAux ts (group ++ [tok])
      else if group ≠ [] then group :: iterPostsAux ts []
      else iterPostsAux ts group

def ThreadParser.iter_posts (tokens : List Token) : List (List Token) :=
  iterPostsAux tokens []

/-- `ThreadParser.get_replies`, generalised over the context strings and the
token list: fold every group into a `Reply` (the `try`/`except` re-raises the
exception, so any failure propagates), then patch
`self.replies[0].message_num = 0` and `self.replies[0].message_parent = -1`,
an `IndexError` when no reply was produced. -/
def ThreadParser.get_replies (forum_id topic_id : String) (tokens : List Token) :
    Except PyErr (List Reply) := do
  let replies ← (ThreadParser.iter_posts tokens).mapM
    (fun post => Reply.consume (Reply.init forum_id topic_id) post)
  match replies with
  | [] => Except.error PyErr.indexError
  | r0 :: rest =>
      Except.ok ({ r0 with message_num := some 0, message_parent := some (-1) } :: rest)

/-- `ThreadParser.__init__`: run the three header searches (an absent match
makes `.group(1)` raise `AttributeError` before any tokenization), then
tokenize (the pattern-collection step abstracted as `raw`), sort, group and
fold.  On any error no object is produced. -/
def mkThreadParser (html : String) (raw : List Token) : Except PyErr ThreadParser :=
  match searchTitleStr html with
  | none => Except.error PyErr.attributeError
  | some title =>
    match searchForum html with
    | none => Except.error PyErr.attributeError
    | some forum_id =>
      match searchTopic html with
      | none => Except.error PyErr.attributeError
      | some topic_id =>
        let tokens := ThreadParser.parse raw
        (ThreadParser.get_replies forum_id topic_id tokens).map
          fun replies => ⟨title, forum_id, topic_id, tokens, replies⟩

/-- The Python runtime value stored in `self.forum_id` by
`ThreadParser.__init__`: `re.search(...).group(1)` returns a `str`. -/
def forumIdRuntime (html : String) : Option PyVal :=
  (searchForum html).map PyVal.str

/-! ### General lemmas about the pipeline -/

/-- Unfolding of `ThreadParser.get_replies` as a case split on the fold of
all post groups. -/
theorem get_replies_eq (f t : String) (tokens : List Token) :
    ThreadParser.get_replies f t tokens =
      match (ThreadParser.iter_posts tokens).mapM
          (fun post => Reply.consume (Reply.init f t) post) with
      | .error e => .error e
      | .ok [] => .error PyErr.indexError
      | .ok (r0 :: rest) =>
          .ok ({ r0 with message_num := some 0, message_parent := some (-1) } :: rest) := by
  unfold ThreadParser.get_replies
  cases (ThreadParser.iter_posts tokens).mapM
      (fun post => Reply.consume (Reply.init f t) post) with
  | error e => rfl
  | ok rs => cases rs <;> rfl

/-- C1: in every successful parse the reply list is non-empty and the
root-reply patch at the end of `get_replies` has overwritten the first
reply's `message_num` with `0` and its `message_parent` with `-1`,
regardless of the token data. -/
theorem C1_root_patch (f t : String) (tokens : List Token) (r : Reply) (rest : List Reply)
    (h : ThreadParser.get_replies f t tokens = Except.ok (r :: rest)) :
    r.message_num = some 0 ∧ r.message_parent = some (-1) := by
  rw [get_replies_eq] at h
  split at h
  · exact Except.noConfusion h
  · exact Except.noConfusion h
  · injection h with h1
    injection h1 with h2 h3
    subst h2
    exact ⟨rfl, rfl⟩

/-- Tokens of one post group ending in a boundary marker, with sequence
number and parent embedded in the source differing from the patched values. -/
def c1Tokens : List Token :=
  [⟨TokenType.MESG_NUM, "42", 0⟩, ⟨TokenType.MESG_PARENT, "7", 1⟩,
   ⟨TokenType.MESG_ID, "5", 2⟩, ⟨TokenType.BREAKER, "Printer-friendly copy", 3⟩]

/-- The reply produced from `c1Tokens` after the root patch. -/
def c1HeadReply : Reply :=
  { forum_id := "1", topic_id := "2", message_id := some 5,
    message_parent := some (-1), message_text := some "", message_num := some 0,
    url := "http://board.okayplayer.com/okp.php?az=show_topic&forum=1&topic_id=2#5" }

/-- Witness for C1 at a concrete parse whose source embedded
`message_num = 42` and `message_parent = 7` for the first post. -/
theorem C1_root_patch_witness :
    c1HeadReply.message_num = some 0 ∧ c1HeadReply.message_parent = some (-1) :=
  C1_root_patch "1" "2" c1Tokens c1HeadReply [] rfl

/-- C9: when grouping yields no complete post group, `get_replies` does not
return an empty list: the unconditional root patch indexes `replies[0]` and
raises `IndexError`. -/
theorem C9_empty_groups_index_error (f t : String) (tokens : List Token)
    (h : ThreadParser.iter_posts tokens = []) :
    ThreadParser.get_replies f t tokens = Except.error PyErr.indexError := by
  rw [get_replies_eq, h]
  rfl

/-- Witness for C9: a document with tokens but no boundary marker. -/
theorem C9_empty_groups_index_error_witness :
    ThreadParser.get_replies "1" "2" [⟨TokenType.MESG_ID, "5", 0⟩] =
      Except.error PyErr.indexError :=
  C9_empty_groups_index_error "1" "2" [⟨TokenType.MESG_ID, "5", 0⟩] rfl

/-- C4: the token sequence produced by the tokenizer (the sort at the end of
`ThreadParser.parse`, over any collected token list) is non-decreasing in
source offset. -/
theorem C4_token_order (raw : List Token) :
    (ThreadParser.parse raw).Pairwise (fun a b => a.position ≤ b.position) := by
  have htrans : ∀ (a b c : Token),
      decide (a.position ≤ b.position) = true →
      decide (b.position ≤ c.position) = true →
      decide (a.position ≤ c.position) = true := by
    intro a b c h1 h2
    simp only [decide_eq_true_eq] at h1 h2 ⊢
    exact Nat.le_trans h1 h2
  have htotal : ∀ (a b : Token),
      (decide (a.position ≤ b.position) || decide (b.position ≤ a.position)) = true := by
    intro a b
    simpa using Nat.le_total a.position b.position
  have h := List.sorted_mergeSort htrans htotal raw
  exact h.imp fun hab => by simpa using hab

/-- C10: if any of the three header patterns (quoted title in a strong
element, `forum=` digits, `topic_id=` digits) has no match, `.group(1)` on
the `None` search result raises before tokenization, so the construction of
the parser fails and yields neither tokens nor replies. -/
theorem C10_header_search_failure (html : String) (raw : List Token)
    (h : searchTitleStr html = none ∨ searchForum html = none ∨ searchTopic html = none) :
    mkThreadParser html raw = Except.error PyErr.attributeError := by
  unfold mkThreadParser
  rcases h with h | h | h
  · rw [h]
  · cases ht : searchTitleStr html with
    | none => rfl
    | some ti => rw [h]
  · cases ht : searchTitleStr html with
    | none => rfl
    | some ti =>
      cases hf : searchForum html with
      | none => rfl
      | some f => rw [h]

/-- Witness for C10: a document with a complete post block (id token and
boundary marker present) but no `forum=` digits. -/
theorem C10_header_search_failure_witness :
    mkThreadParser "<strong> \"T\" </strong> topic_id=3 stuff Printer-friendly copy"
      [⟨TokenType.MESG_ID, "5", 0⟩, ⟨TokenType.BREAKER, "Printer-friendly copy", 1⟩] =
      Except.error PyErr.attributeError :=
  C10_header_search_failure
    "<strong> \"T\" </strong> topic_id=3 stuff Printer-friendly copy"
    [⟨TokenType.MESG_ID, "5", 0⟩, ⟨TokenType.BREAKER, "Printer-friendly copy", 1⟩]
    (Or.inr (Or.inl rfl))

/-- C7 counterexample: the `BREAKER` pattern `(Printer-friendly copy)` does
carry a capture group, so on a document consisting of the phrase itself the
boundary-marker token's payload is the whole phrase, not the empty string. -/
theorem C7_breaker_payload_counterexample :
    (breakerFinditer "Printer-friendly copy").map Token.data =
      ["Printer-friendly copy"] ∧ "Printer-friendly copy" ≠ "" :=
  ⟨rfl, by decide⟩

/-- C7 amended: every boundary-marker token's payload is the captured literal
phrase `Printer-friendly copy` — in particular it is never empty. -/
theorem C7_breaker_payload (doc : String) (tok : Token)
    (h : tok ∈ breakerFinditer doc) :
    tok.data = breakerPhrase ∧ tok.data ≠ "" := by
  rcases List.mem_map.mp h with ⟨p, hp, rfl⟩
  refine ⟨rfl, ?_⟩
  show breakerPhrase ≠ ""
  decide

/-- Witness for the amended C7 on a concrete document. -/
theorem C7_breaker_payload_witness :
    (⟨TokenType.BREAKER, "Printer-friendly copy", 0⟩ : Token).data = breakerPhrase ∧
      (⟨TokenType.BREAKER, "Printer-friendly copy", 0⟩ : Token).data ≠ "" :=
  C7_breaker_payload "Printer-friendly copy" ⟨TokenType.BREAKER, "Printer-friendly copy", 0⟩
    (by decide)

/-! ### C2: the grouping step -/

/-- The grouping described by the spec: cut the token list at boundary
markers into its maximal runs of non-boundary tokens, drop the trailing run
after the last marker (a post is complete only once its marker is seen), and
discard empty runs (consecutive markers yield nothing). -/
def boundaryRuns (tokens : List Token) : List (List Token) :=
  (((tokens.splitOnP fun tok => tok.type = TokenType.BREAKER).dropLast).filter
    fun g => g ≠ [])

theorem modifyHead_nil_append (l : List (List Token)) :
    (l.modifyHead fun g => ([] : List Token) ++ g) = l := by
  cases l <;> simp [List.modifyHead]

theorem iterPostsAux_splitOnP (ts : List Token) (acc : List Token) :
    iterPostsAux ts acc =
      ((((ts.splitOnP fun tok => tok.type = TokenType.BREAKER).modifyHead
          fun g => acc ++ g).dropLast).filter fun g => g ≠ []) := by
  induction ts generalizing acc with
  | nil =>
      rw [iterPostsAux, List.splitOnP_nil]
      rfl
  | cons tok rest ih =>
      rw [List.splitOnP_cons]
      by_cases hb : tok.type = TokenType.BREAKER
      · rw [if_pos (by simpa using hb)]
        have hne := List.splitOnP_ne_nil (fun tok => decide (tok.type = TokenType.BREAKER)) rest
        rw [iterPostsAux, if_neg (by simpa using hb)]
        cases hS : (rest.splitOnP fun tok => tok.type = TokenType.BREAKER) with
        | nil => exact absurd hS hne
        | cons s0 S =>
          by_cases hacc : acc = []
          · subst hacc
            rw [if_neg (by simp), ih [], hS]
            simp [List.modifyHead]
          · rw [if_pos (by simpa using hacc), ih [], hS]
            simp [List.modifyHead, hacc]
      · rw [if_neg (by simpa using hb)]
        rw [iterPostsAux, if_pos (by simpa using hb)]
        rw [ih (acc ++ [tok])]
        rw [List.modifyHead_modifyHead]
        have : ((fun g => acc ++ g) ∘ (List.cons tok)) =
            fun g => (acc ++ [tok]) ++ g := by
          funext g
          simp
        rw [this]

/-- C2: the grouping step emits exactly the maximal non-empty runs of
non-boundary tokens that are followed by a boundary-marker token, in order:
a marker seen while the current group is empty emits nothing, and a trailing
run with no following marker is dropped. -/
theorem C2_grouping (tokens : List Token) :
    ThreadParser.iter_posts tokens = boundaryRuns tokens := by
  unfold ThreadParser.iter_posts boundaryRuns
  rw [iterPostsAux_splitOnP tokens [], modifyHead_nil_append]

/-! ### Lemmas about one step of the token loop -/

theorem except_map_ok {α β : Type} (f : α → β) (x : Except PyErr α) (b : β)
    (h : Except.map f x = .ok b) : ∃ a, x = .ok a ∧ b = f a := by
  cases x with
  | ok a => exact ⟨a, rfl, (Except.ok.inj h).symm⟩
  | error e => exact Except.noConfusion h

theorem except_map_error {α β : Type} (f : α → β) (x : Except PyErr α) (e : PyErr)
    (h : Except.map f x = .error e) : x = .error e := by
  cases x with
  | ok a => exact Except.noConfusion h
  | error e2 =>
      have h2 : e2 = e := Except.error.inj h
      rw [h2]

theorem pyIntE_error (s : String) (e : PyErr) (h : pyIntE s = .error e) :
    e = PyErr.conversionError := by
  unfold pyIntE at h
  cases hp : pyInt s with
  | some n => rw [hp] at h; exact Except.noConfusion h
  | none => rw [hp] at h; exact (Except.error.inj h).symm

/-- Every error raised inside the token loop of `Reply.consume` is a
value-conversion failure. -/
theorem consumeToken_error_eq (st : Reply × List String) (tok : Token) (e : PyErr)
    (h : consumeToken st tok = .error e) : e = PyErr.conversionError := by
  obtain ⟨ty, data, pos⟩ := tok
  cases ty <;> simp only [consumeToken] at h
  all_goals first
    | exact Except.noConfusion h
    | exact pyIntE_error _ _ (except_map_error _ _ _ h)
    | (split at h <;>
        first
          | exact Except.noConfusion h
          | exact (Except.error.inj h).symm)

/-- A step of the token loop never changes `forum_id` or `topic_id`. -/
theorem consumeToken_preserves_context (st : Reply × List String) (tok : Token)
    (st' : Reply × List String) (h : consumeToken st tok = .ok st') :
    st'.1.forum_id = st.1.forum_id ∧ st'.1.topic_id = st.1.topic_id := by
  obtain ⟨r, msg⟩ := st
  obtain ⟨ty, data, pos⟩ := tok
  cases ty <;> simp only [consumeToken] at h
  all_goals first
    | (obtain ⟨n, hx, rfl⟩ := except_map_ok _ _ _ h
       exact ⟨rfl, rfl⟩)
    | (obtain rfl := Except.ok.inj h
       exact ⟨rfl, rfl⟩)
    | (split at h <;>
        first
          | exact Except.noConfusion h
          | (obtain rfl := Except.ok.inj h
             exact ⟨rfl, rfl⟩))

/-- A step on a token that is not a `MESG_ID` token never assigns
`message_id`. -/
theorem consumeToken_preserves_message_id (st : Reply × List String) (tok : Token)
    (st' : Reply × List String) (hty : tok.type ≠ TokenType.MESG_ID)
    (h : consumeToken st tok = .ok st') :
    st'.1.message_id = st.1.message_id := by
  obtain ⟨r, msg⟩ := st
  obtain ⟨ty, data, pos⟩ := tok
  cases ty <;> simp only [consumeToken] at h
  all_goals first
    | exact absurd rfl hty
    | (obtain ⟨n, hx, rfl⟩ := except_map_ok _ _ _ h
       exact rfl)
    | (obtain rfl := Except.ok.inj h
       exact rfl)
    | (split at h <;>
        first
          | exact Except.noConfusion h
          | (obtain rfl := Except.ok.inj h
             exact rfl))

/-- A step on a token that is neither a charter-flag nor a join-date token
changes neither `author_is_charter` nor `author_join_date`. -/
theorem consumeToken_preserves_charter (st : Reply × List String) (tok : Token)
    (st' : Reply × List String)
    (h1 : tok.type ≠ TokenType.AUTHOR_CHARTER) (h2 : tok.type ≠ TokenType.AUTHOR_NEWBIE)
    (h : consumeToken st tok = .ok st') :
    st'.1.author_is_charter = st.1.author_is_charter ∧
      st'.1.author_join_date = st.1.author_join_date := by
  obtain ⟨r, msg⟩ := st
  obtain ⟨ty, data, pos⟩ := tok
  cases ty <;> simp only [consumeToken] at h
  all_goals first
    | exact absurd rfl h1
    | exact absurd rfl h2
    | (obtain ⟨n, hx, rfl⟩ := except_map_ok _ _ _ h
       exact ⟨rfl, rfl⟩)
    | (obtain rfl := Except.ok.inj h
       exact ⟨rfl, rfl⟩)
    | (split at h <;>
        first
          | exact Except.noConfusion h
          | (obtain rfl := Except.ok.inj h
             exact ⟨rfl, rfl⟩))

/-- A step of the token loop preserves the mutual exclusion of
`author_is_charter` and `author_join_date`. -/
theorem consumeToken_preserves_excl (st : Reply × List String) (tok : Token)
    (st' : Reply × List String)
    (hinv : ¬(st.1.author_is_charter = true ∧ st.1.author_join_date.isSome = true))
    (h : consumeToken st tok = .ok st') :
    ¬(st'.1.author_is_charter = true ∧ st'.1.author_join_date.isSome = true) := by
  obtain ⟨r, msg⟩ := st
  obtain ⟨ty, data, pos⟩ := tok
  cases ty <;> simp only [consumeToken] at h
  all_goals first
    | (obtain ⟨n, hx, rfl⟩ := except_map_ok _ _ _ h
       exact hinv)
    | (obtain rfl := Except.ok.inj h
       first
         | exact hinv
         | simp)
    | (split at h <;>
        first
          | exact Except.noConfusion h
          | (obtain rfl := Except.ok.inj h
             first
               | exact hinv
               | simp))

/-! ### Lemmas about the whole token loop -/

/-- Invariant propagation along the token loop. -/
theorem foldlM_consumeToken_inv (P : Reply × List String → Prop) (g : List Token) :
    ∀ (st st' : Reply × List String),
      (∀ s tok s2, tok ∈ g → consumeToken s tok = .ok s2 → P s → P s2) →
      g.foldlM consumeToken st = .ok st' → P st → P st' := by
  induction g with
  | nil =>
      intro st st' _ h hp
      rw [List.foldlM_nil] at h
      obtain rfl := Except.ok.inj h
      exact hp
  | cons tok ts ih =>
      intro st st' hstep h hp
      rw [List.foldlM_cons] at h
      cases h1 : consumeToken st tok with
      | error e =>
          rw [h1] at h
          exact Except.noConfusion (show (Except.error e : Except PyErr (Reply × List String)) =
            .ok st' from h)
      | ok st1 =>
          rw [h1] at h
          exact ih st1 st' (fun s u s2 hu => hstep s u s2 (List.mem_cons_of_mem _ hu))
            (show ts.foldlM consumeToken st1 = .ok st' from h)
            (hstep st tok st1 (List.mem_cons_self _ _) h1 hp)

/-- Every error of the token loop is a value-conversion failure. -/
theorem foldlM_consumeToken_error (g : List Token) :
    ∀ (st : Reply × List String) (e : PyErr),
      g.foldlM consumeToken st = .error e → e = PyErr.conversionError := by
  induction g with
  | nil =>
      intro st e h
      rw [List.foldlM_nil] at h
      exact Except.noConfusion h
  | cons tok ts ih =>
      intro st e h
      rw [List.foldlM_cons] at h
      cases h1 : consumeToken st tok with
      | error e2 =>
          rw [h1] at h
          have h2 : e2 = e := Except.error.inj h
          exact h2 ▸ consumeToken_error_eq st tok e2 h1
      | ok st1 =>
          rw [h1] at h
          exact ih st1 e (show ts.foldlM consumeToken st1 = .error e from h)

/-- Unfolding of `Reply.consume` when the token loop succeeds. -/
theorem consume_eq_of_fold_ok (r0 : Reply) (post : List Token) (r1 : Reply) (msg : List String)
    (hf : post.foldlM consumeToken (r0, []) = .ok (r1, msg)) :
    Reply.consume r0 post =
      (match pyInt r1.forum_id with
       | none => .error PyErr.conversionError
       | some f =>
         match pyInt r1.topic_id with
         | none => .error PyErr.conversionError
         | some t =>
           match r1.message_id with
           | none => .error PyErr.conversionError
           | some m =>
               .ok { r1 with message_text := some (String.join msg), url := replyUrl f t m }) := by
  unfold Reply.consume
  rw [hf]

/-- If no token of the group ever assigns `message_id`, the fold fails with a
value-conversion error (at the latest when the deep-link URL is built from
`int(None)`). -/
theorem consume_no_id (r0 : Reply) (post : List Token)
    (hnoid : ∀ tok ∈ post, tok.type ≠ TokenType.MESG_ID)
    (hid0 : r0.message_id = none) :
    Reply.consume r0 post = .error PyErr.conversionError := by
  cases hf : post.foldlM consumeToken (r0, []) with
  | error e =>
      have he := foldlM_consumeToken_error post (r0, []) e hf
      subst he
      unfold Reply.consume
      rw [hf]
  | ok st =>
      obtain ⟨r1, msg⟩ := st
      have hid : r1.message_id = none :=
        foldlM_consumeToken_inv (fun st => st.1.message_id = none) post (r0, []) (r1, msg)
          (fun s tok s2 htok hok hp => by
            show s2.1.message_id = none
            rw [consumeToken_preserves_message_id s tok s2 (hnoid tok htok) hok]
            exact hp)
          hf hid0
      rw [consume_eq_of_fold_ok r0 post r1 msg hf]
      cases hpf : pyInt r1.forum_id with
      | none => rfl
      | some fv =>
          cases hpt : pyInt r1.topic_id with
          | none => rfl
          | some tv =>
              rw [hid]

/-- Inversion of a successful `Reply.consume`: the token loop succeeded and
the returned reply only adds `message_text` and `url` on top of the folded
state. -/
theorem consume_ok_elim (r0 : Reply) (post : List Token) (r : Reply)
    (h : Reply.consume r0 post = .ok r) :
    ∃ r1 msg, post.foldlM consumeToken (r0, []) = .ok (r1, msg) ∧
      r.author_is_charter = r1.author_is_charter ∧
      r.author_join_date = r1.author_join_date ∧
      r.forum_id = r1.forum_id ∧ r.topic_id = r1.topic_id := by
  cases hf : post.foldlM consumeToken (r0, []) with
  | error e =>
      unfold Reply.consume at h
      rw [hf] at h
      exact Except.noConfusion (show (Except.error e : Except PyErr Reply) = .ok r from h)
  | ok st =>
      obtain ⟨r1, msg⟩ := st
      rw [consume_eq_of_fold_ok r0 post r1 msg hf] at h
      cases hpf : pyInt r1.forum_id with
      | none =>
          rw [hpf] at h
          exact Except.noConfusion
            (show (Except.error PyErr.conversionError : Except PyErr Reply) = .ok r from h)
      | some fv =>
          rw [hpf] at h
          cases hpt : pyInt r1.topic_id with
          | none =>
              rw [hpt] at h
              exact Except.noConfusion
                (show (Except.error PyErr.conversionError : Except PyErr Reply) = .ok r from h)
          | some tv =>
              rw [hpt] at h
              cases hid : r1.message_id with
              | none =>
                  rw [hid] at h
                  exact Except.noConfusion
                    (show (Except.error PyErr.conversionError : Except PyErr Reply) = .ok r from h)
              | some m =>
                  rw [hid] at h
                  obtain rfl := Except.ok.inj h
                  exact ⟨r1, msg, rfl, rfl, rfl, rfl, rfl⟩

/-- If some group's fold fails, `mapM` over the groups never succeeds. -/
theorem mapM_not_ok_of_mem {β : Type} (f : List Token → Except PyErr β) (gs : List (List Token))
    (g : List Token) (hg : g ∈ gs) (e : PyErr) (hfe : f g = .error e) :
    ∀ ys, gs.mapM f ≠ .ok ys := by
  induction gs with
  | nil => cases hg
  | cons a ts ih =>
      intro ys hok
      rw [List.mapM_cons] at hok
      cases hga : f a with
      | error e2 =>
          rw [hga] at hok
          exact Except.noConfusion (show (Except.error e2 : Except PyErr (List β)) = .ok ys from hok)
      | ok y =>
          rw [hga] at hok
          cases hts : ts.mapM f with
          | error e3 =>
              rw [hts] at hok
              exact Except.noConfusion
                (show (Except.error e3 : Except PyErr (List β)) = .ok ys from hok)
          | ok xs =>
              rcases List.mem_cons.mp hg with rfl | hg2
              · rw [hga] at hfe
                exact Except.noConfusion hfe
              · exact ih hg2 xs hts

/-- C3: folding a post group that has at least one token but no `MESG_ID`
token fails with a value-conversion error; whenever the token loop itself
completes, `message_id` is still unset, so the failing step is the deep-link
URL construction; and the failure makes the whole parse fail, so the caller
receives no reply list at all. -/
theorem C3_missing_id (f t : String) (tokens : List Token) (g : List Token)
    (hg : g ∈ ThreadParser.iter_posts tokens)
    (hne : g ≠ [])
    (hnoid : ∀ tok ∈ g, tok.type ≠ TokenType.MESG_ID) :
    Reply.consume (Reply.init f t) g = .error PyErr.conversionError ∧
    (∀ r1 msg, g.foldlM consumeToken (Reply.init f t, []) = .ok (r1, msg) →
        r1.message_id = none) ∧
    (∀ rs, ThreadParser.get_replies f t tokens ≠ .ok rs) := by
  have hcons := consume_no_id (Reply.init f t) g hnoid rfl
  refine ⟨hcons, ?_, ?_⟩
  · intro r1 msg hf
    exact foldlM_consumeToken_inv (fun st => st.1.message_id = none) g
      (Reply.init f t, []) (r1, msg)
      (fun s tok s2 htok hok hp => by
        show s2.1.message_id = none
        rw [consumeToken_preserves_message_id s tok s2 (hnoid tok htok) hok]
        exact hp)
      hf rfl
  · intro rs hok
    rw [get_replies_eq] at hok
    have hno := mapM_not_ok_of_mem (fun post => Reply.consume (Reply.init f t) post)
      (ThreadParser.iter_posts tokens) g hg PyErr.conversionError hcons
    cases hm : (ThreadParser.iter_posts tokens).mapM
        (fun post => Reply.consume (Reply.init f t) post) with
    | error e =>
        rw [hm] at hok
        exact Except.noConfusion
          (show (Except.error e : Except PyErr (List Reply)) = .ok rs from hok)
    | ok ys => exact hno ys hm

/-- Witness for C3: a group with only a message-body token (no id token),
followed in the document by its boundary marker. -/
theorem C3_missing_id_witness :
    Reply.consume (Reply.init "1" "2") [⟨TokenType.MESG_TEXT, "x", 0⟩] =
      .error PyErr.conversionError :=
  (C3_missing_id "1" "2"
      [⟨TokenType.MESG_TEXT, "x", 0⟩, ⟨TokenType.BREAKER, "Printer-friendly copy", 1⟩]
      [⟨TokenType.MESG_TEXT, "x", 0⟩] (by decide) (by decide) (by decide)).1

/-- C5: folding an avatar token lower-cases its payload; the lower-cased URL
is assigned to `author_avatar` exactly when it starts with the absolute
scheme prefix and ends in one of the three raster-image extensions, and the
token is silently discarded otherwise. -/
theorem C5_avatar_filter (r : Reply) (msg : List String) (tok : Token)
    (htype : tok.type = TokenType.AUTHOR_AVATAR) :
    (¬(pyStartsWith (pyLower tok.data) "http" ∧
        (pyEndsWith (pyLower tok.data) "jpg" ∨ pyEndsWith (pyLower tok.data) "gif" ∨
          pyEndsWith (pyLower tok.data) "png")) →
      consumeToken (r, msg) tok = .ok (r, msg)) ∧
    ((pyStartsWith (pyLower tok.data) "http" ∧
        (pyEndsWith (pyLower tok.data) "jpg" ∨ pyEndsWith (pyLower tok.data) "gif" ∨
          pyEndsWith (pyLower tok.data) "png")) →
      consumeToken (r, msg) tok =
        .ok ({ r with author_avatar := some (pyLower tok.data) }, msg)) := by
  obtain ⟨ty, data, pos⟩ := tok
  have hty : ty = TokenType.AUTHOR_AVATAR := htype
  subst hty
  constructor
  · intro hno
    simp only [consumeToken]
    rw [if_neg hno]
  · intro hyes
    simp only [consumeToken]
    rw [if_pos hyes]

/-- Witness for C5 at an upper-case absolute image URL (accepted and
normalized) — the theorem is applied at a concrete token. -/
theorem C5_avatar_filter_witness :
    consumeToken (Reply.init "1" "2", []) ⟨TokenType.AUTHOR_AVATAR, "HTTP://A.COM/B.JPG", 0⟩ =
      .ok ({ Reply.init "1" "2" with author_avatar := some "http://a.com/b.jpg" }, []) := by
  have h := (C5_avatar_filter (Reply.init "1" "2") []
    ⟨TokenType.AUTHOR_AVATAR, "HTTP://A.COM/B.JPG", 0⟩ rfl).2 (by decide)
  rw [h]
  rfl

/-- C6: after folding any post group, `author_is_charter` and a set
`author_join_date` never hold together; and when the group is split around
its last charter-flag or join-date token, that token determines the final
state: a charter token leaves the flag set and the join date cleared, a
join-date token leaves the parsed date assigned and the flag cleared. -/
theorem C6_charter_join_exclusive (f t : String) (g : List Token) (r : Reply)
    (h : Reply.consume (Reply.init f t) g = .ok r) :
    (¬(r.author_is_charter = true ∧ r.author_join_date.isSome = true)) ∧
    (∀ g1 tok g2, g = g1 ++ tok :: g2 →
      (∀ u ∈ g2, u.type ≠ TokenType.AUTHOR_CHARTER ∧ u.type ≠ TokenType.AUTHOR_NEWBIE) →
      ((tok.type = TokenType.AUTHOR_CHARTER →
          r.author_is_charter = true ∧ r.author_join_date = none) ∧
       (tok.type = TokenType.AUTHOR_NEWBIE →
          r.author_is_charter = false ∧
          r.author_join_date = strptimeJoinDate (removeOrdinals tok.data).toList ∧
          r.author_join_date.isSome = true))) := by
  obtain ⟨r1, msg, hfold, hch, hjd, _, _⟩ := consume_ok_elim (Reply.init f t) g r h
  constructor
  · rw [hch, hjd]
    exact foldlM_consumeToken_inv
      (fun st => ¬(st.1.author_is_charter = true ∧ st.1.author_join_date.isSome = true))
      g (Reply.init f t, []) (r1, msg)
      (fun s tok s2 _ hok hp => consumeToken_preserves_excl s tok s2 hp hok)
      hfold (by simp [Reply.init])
  · intro g1 tok g2 hdecomp hlast
    subst hdecomp
    rw [List.foldlM_append] at hfold
    cases hA : g1.foldlM consumeToken (Reply.init f t, []) with
    | error e =>
        rw [hA] at hfold
        exact Except.noConfusion
          (show (Except.error e : Except PyErr (Reply × List String)) = .ok (r1, msg) from hfold)
    | ok stA =>
        rw [hA] at hfold
        have hfold2 : (tok :: g2).foldlM consumeToken stA = .ok (r1, msg) := hfold
        rw [List.foldlM_cons] at hfold2
        cases hB : consumeToken stA tok with
        | error e =>
            rw [hB] at hfold2
            exact Except.noConfusion
              (show (Except.error e : Except PyErr (Reply × List String)) = .ok (r1, msg)
                from hfold2)
        | ok stB =>
            rw [hB] at hfold2
            have hfold3 : g2.foldlM consumeToken stB = .ok (r1, msg) := hfold2
            have hpres : ∀ (b : Bool) (jd : Option PyDateTime),
                stB.1.author_is_charter = b → stB.1.author_join_date = jd →
                r1.author_is_charter = b ∧ r1.author_join_date = jd := by
              intro b jd hb hj
              exact foldlM_consumeToken_inv
                (fun st => st.1.author_is_charter = b ∧ st.1.author_join_date = jd)
                g2 stB (r1, msg)
                (fun s u s2 hu hok hp => by
                  obtain ⟨hc2, hj2⟩ := consumeToken_preserves_charter s u s2
                    (hlast u hu).1 (hlast u hu).2 hok
                  exact ⟨hc2.trans hp.1, hj2.trans hp.2⟩)
                hfold3 ⟨hb, hj⟩
            constructor
            · intro hty
              unfold consumeToken at hB
              rw [hty] at hB
              have hstB := Except.ok.inj hB
              obtain ⟨hc1, hj1⟩ := hpres true none (by rw [← hstB]) (by rw [← hstB])
              exact ⟨hch.trans hc1, hjd.trans hj1⟩
            · intro hty
              unfold consumeToken at hB
              rw [hty] at hB
              cases hd : strptimeJoinDate (removeOrdinals tok.data).toList with
              | none =>
                  rw [hd] at hB
                  exact Except.noConfusion
                    (show (Except.error PyErr.conversionError :
                        Except PyErr (Reply × List String)) = .ok stB from hB)
              | some d =>
                  rw [hd] at hB
                  have hstB := Except.ok.inj hB
                  obtain ⟨hc1, hj1⟩ := hpres false (some d) (by rw [← hstB]) (by rw [← hstB])
                  refine ⟨hch.trans hc1, ?_, ?_⟩
                  · rw [hjd, hj1]
                  · rw [hjd, hj1]
                    rfl

/-- Tokens for the C6 witness: a join-date token followed by a charter
token, so the later charter token must win. -/
def c6Group : List Token :=
  [⟨TokenType.MESG_ID, "5", 0⟩, ⟨TokenType.AUTHOR_NEWBIE, "Jan 1st 2005", 1⟩,
   ⟨TokenType.AUTHOR_CHARTER, "Charter member", 2⟩]

/-- The reply folded from `c6Group`. -/
def c6Reply : Reply :=
  { forum_id := "1", topic_id := "2", message_id := some 5,
    message_text := some "", author_is_charter := true,
    url := "http://board.okayplayer.com/okp.php?az=show_topic&forum=1&topic_id=2#5" }

/-- Witness for C6: the charter token occurs last in `c6Group` and wins over
the earlier join-date token. -/
theorem C6_charter_join_exclusive_witness :
    c6Reply.author_is_charter = true ∧ c6Reply.author_join_date = none :=
  ((C6_charter_join_exclusive "1" "2" c6Group c6Reply rfl).2
      [⟨TokenType.MESG_ID, "5", 0⟩, ⟨TokenType.AUTHOR_NEWBIE, "Jan 1st 2005", 1⟩]
      ⟨TokenType.AUTHOR_CHARTER, "Charter member", 2⟩ [] rfl (by decide)).1 rfl

/-- Every reply produced by folding the groups keeps the context strings it
was constructed with. -/
theorem mapM_consume_context (f t : String) (gs : List (List Token)) :
    ∀ (ys : List Reply),
      gs.mapM (fun post => Reply.consume (Reply.init f t) post) = .ok ys →
      ∀ y ∈ ys, y.forum_id = f ∧ y.topic_id = t := by
  induction gs with
  | nil =>
      intro ys h
      rw [List.mapM_nil] at h
      obtain rfl := Except.ok.inj h
      intro y hy
      cases hy
  | cons a ts ih =>
      intro ys h
      rw [List.mapM_cons] at h
      cases ha : Reply.consume (Reply.init f t) a with
      | error e =>
          rw [ha] at h
          exact absurd (show (Except.error e : Except PyErr (List Reply)) = .ok ys from h)
            (fun hx => Except.noConfusion hx)
      | ok y0 =>
          rw [ha] at h
          cases hts : ts.mapM (fun post => Reply.consume (Reply.init f t) post) with
          | error e =>
              rw [hts] at h
              exact absurd (show (Except.error e : Except PyErr (List Reply)) = .ok ys from h)
                (fun hx => Except.noConfusion hx)
          | ok ys2 =>
              rw [hts] at h
              have h2 : (Except.ok (y0 :: ys2) : Except PyErr (List Reply)) = .ok ys := h
              obtain rfl := Except.ok.inj h2
              intro y hy
              rcases List.mem_cons.mp hy with rfl | hy2
              · obtain ⟨r1, msg, hfold, _, _, hfid, htid⟩ :=
                  consume_ok_elim (Reply.init f t) a y ha
                have hctx : r1.forum_id = f ∧ r1.topic_id = t :=
                  foldlM_consumeToken_inv
                    (fun st => st.1.forum_id = f ∧ st.1.topic_id = t)
                    a (Reply.init f t, []) (r1, msg)
                    (fun s u s2 _ hok hp => by
                      obtain ⟨h1, h2⟩ := consumeToken_preserves_context s u s2 hok
                      exact ⟨h1.trans hp.1, h2.trans hp.2⟩)
                    hfold ⟨rfl, rfl⟩
                exact ⟨hfid.trans hctx.1, htid.trans hctx.2⟩
              · exact ih ys2 hts y hy2

/-- C8 amended: the `forum_id` and `topic_id` of every produced reply are the
context strings the thread parser passed in — inherited and constant across
all replies of the parse. -/
theorem C8_context_constant (f t : String) (tokens : List Token) (rs : List Reply)
    (h : ThreadParser.get_replies f t tokens = .ok rs) :
    ∀ r ∈ rs, r.forum_id = f ∧ r.topic_id = t := by
  rw [get_replies_eq] at h
  cases hm : (ThreadParser.iter_posts tokens).mapM
      (fun post => Reply.consume (Reply.init f t) post) with
  | error e =>
      rw [hm] at h
      exact absurd (show (Except.error e : Except PyErr (List Reply)) = .ok rs from h)
        (fun hx => Except.noConfusion hx)
  | ok ys =>
      rw [hm] at h
      cases ys with
      | nil =>
          exact absurd
            (show (Except.error PyErr.indexError : Except PyErr (List Reply)) = .ok rs from h)
            (fun hx => Except.noConfusion hx)
      | cons y0 yrest =>
          obtain rfl := Except.ok.inj h
          intro r hr
          rcases List.mem_cons.mp hr with rfl | hr2
          · have hy0 := mapM_consume_context f t (ThreadParser.iter_posts tokens)
              (y0 :: yrest) hm y0 (List.mem_cons_self _ _)
            exact ⟨hy0.1, hy0.2⟩
          · exact mapM_consume_context f t (ThreadParser.iter_posts tokens)
              (y0 :: yrest) hm r (List.mem_cons_of_mem _ hr2)

/-- The head reply of the concrete C8 parse: its `forum_id`/`topic_id` hold
the captured digit strings, not integers. -/
def c8Reply : Reply :=
  { forum_id := "7", topic_id := "3", message_id := some 5,
    message_parent := some (-1), message_text := some "", message_num := some 0,
    url := "http://board.okayplayer.com/okp.php?az=show_topic&forum=7&topic_id=3#5" }

/-- C8 counterexample: on a concrete document the header search captures the
Python string `"7"` (`group(1)` of `forum=(\d+)` is a `str`, not an `int`),
that string is what a produced reply's `forum_id` holds, and the runtime
value is not an integer. -/
theorem C8_counterexample :
    searchForum "forum=7 topic_id=3 <strong>\"T\"</strong>" = some "7" ∧
    forumIdRuntime "forum=7 topic_id=3 <strong>\"T\"</strong>" = some (PyVal.str "7") ∧
    (PyVal.str "7").isInt = false ∧
    ThreadParser.get_replies "7" "3"
        [⟨TokenType.MESG_ID, "5", 0⟩, ⟨TokenType.BREAKER, "Printer-friendly copy", 1⟩] =
      .ok [c8Reply] ∧
    c8Reply.forum_id = "7" :=
  ⟨rfl, rfl, rfl, rfl, rfl⟩

/-- Witness for the amended C8 at the concrete parse of `c8Reply`. -/
theorem C8_context_constant_witness :
    c8Reply.forum_id = "7" ∧ c8Reply.topic_id = "3" :=
  C8_context_constant "7" "3"
    [⟨TokenType.MESG_ID, "5", 0⟩, ⟨TokenType.BREAKER, "Printer-friendly copy", 1⟩]
    [c8Reply] rfl c8Reply (List.mem_cons_self _ _)
